import Mathlib

/-!
Verification development for a Sentinel-1 SAR processing script
(`process_scene.py`). The script is a linear pipeline: credential loading,
OAuth2 token fetch, one HTTP POST to a processing API, raster decoding,
linear-power-to-decibel conversion with threshold-based invalid-pixel
masking, NaN substitution for display, and a vector overlay built from the
first geometry of a shapefile.

This file shallowly embeds the script's data flow and arithmetic:
* the per-pixel band math `10 * log10 (x + 1e-10)` on real numbers;
* the boolean mask algebra `invalid = (datamask == 0) | (dB < -22)`;
* the control flow of the credential / authentication / fetch stages as a
  total function from an abstract input (environment values, token-exchange
  outcome, HTTP status and body) to a result record (log events, token,
  image bytes, whether `exit()` ran, whether the raster was opened);
* the display block (`.copy()` followed by masked NaN assignment);
* the compound matplotlib path (outer axes rectangle plus the first
  geometry's ring) used for the vector overlay.
-/

namespace SentinelProc

/-- A raster band of `r` rows and `c` columns holding values of type `α`,
modelling a 2-d numpy array. -/
def Grid (r c : ℕ) (α : Type) : Type := Fin r → Fin c → α

/-! ### Band math (script section 5, lines 128-141) -/

/-- The additive epsilon `1e-10` used to avoid taking `log 0`. -/
def eps : ℝ := 1e-10

/-- Linear power to decibel conversion: `10 * np.log10(x + 1e-10)`.
Noncomputable only because `Real.logb` is. -/
noncomputable def dB (x : ℝ) : ℝ := 10 * Real.logb 10 (x + eps)

/-- Elementwise dB conversion of a band, as in
`vv_band_db = 10 * np.log10(vv_band_linear + 1e-10)`. -/
noncomputable def bandToDb {r c : ℕ} (g : Grid r c ℝ) : Grid r c ℝ := fun i j => dB (g i j)

/-- `nodata_mask = datamask == 0` (elementwise, as a predicate). -/
def nodata_mask {r c : ℕ} (datamask : Grid r c ℝ) (i : Fin r) (j : Fin c) : Prop :=
  datamask i j = 0

/-- A polarization's noise mask `band_db < -22` (elementwise). -/
def noise_mask {r c : ℕ} (band_db : Grid r c ℝ) (i : Fin r) (j : Fin c) : Prop :=
  band_db i j < -22

/-- `vv_invalid_mask = nodata_mask | vv_noise_mask` (elementwise). -/
def vv_invalid_mask {r c : ℕ} (datamask vv_band_db : Grid r c ℝ)
    (i : Fin r) (j : Fin c) : Prop :=
  nodata_mask datamask i j ∨ noise_mask vv_band_db i j

/-- `vh_invalid_mask = nodata_mask | vh_noise_mask` (elementwise). -/
def vh_invalid_mask {r c : ℕ} (datamask vh_band_db : Grid r c ℝ)
    (i : Fin r) (j : Fin c) : Prop :=
  nodata_mask datamask i j ∨ noise_mask vh_band_db i j

/-! ### Pipeline control flow (script sections 1, 2, 4 and the section-5 guard) -/

/-- One print statement of the script, abstracted to an event. -/
inductive LogEvent where
  | credFatal
  | credOk
  | configLoaded
  | authOk
  | authFailed (msg : String)
  | fetchOk (nbytes : ℕ)
  | fetchFailed (status : ℕ)
  | noImage
  deriving DecidableEq, Repr

/-- The outside world as the script observes it: the two environment values
(`none` when the variable is absent), the outcome of the OAuth2 token
exchange (`Except.error` when `fetch_token` raises), and the HTTP response
to the process-API POST (status code and body bytes). -/
structure ScriptInput where
  client_id : Option String
  client_secret : Option String
  tokenResult : Except String String
  status : ℕ
  content : List ℕ

/-- Observable outcome of running the script up to (and including) the
`if not image_bytes: exit()` guard that precedes `rasterio.open`. -/
structure ScriptResult where
  logs : List LogEvent
  token : Option String
  image_bytes : Option (List ℕ)
  exited : Bool
  rasterOpened : Bool

/-- Python truthiness of an optional string: `None` and `""` are falsy. -/
def truthyOptStr : Option String → Bool
  | none => false
  | some s => !s.isEmpty

/-- Python truthiness of the `image_bytes` variable: `None` and `b""` are
falsy. -/
def truthyBytes : Option (List ℕ) → Bool
  | none => false
  | some bs => !bs.isEmpty

/-- Section 1: `if not CLIENT_ID or not CLIENT_SECRET: print(FATAL...)`,
then unconditionally `print("Configuration loaded and ready.")`. The script
does not exit in either branch. -/
def credLogs (cid cs : Option String) : List LogEvent :=
  if truthyOptStr cid && truthyOptStr cs then
    [LogEvent.credOk, LogEvent.configLoaded]
  else
    [LogEvent.credFatal, LogEvent.configLoaded]

/-- Section 2: `try: token = oauth.fetch_token(...) except Exception as e:
print(f"Authentication failed: ...")`. On failure the exception is swallowed
and no token is set. -/
def authStep (tr : Except String String) : List LogEvent × Option String :=
  match tr with
  | Except.ok t => ([LogEvent.authOk], some t)
  | Except.error e => ([LogEvent.authFailed e], none)

/-- Section 4: `if response.status_code == 200: image_bytes =
response.content else: print(f"Request failed: ..."); image_bytes = None`. -/
def fetchStep (status : ℕ) (content : List ℕ) : List LogEvent × Option (List ℕ) :=
  if status = 200 then ([LogEvent.fetchOk content.length], some content)
  else ([LogEvent.fetchFailed status], none)

/-- The script from section 1 through the section-5 guard
`if not image_bytes: print("No image data available..."); exit()`.
`rasterOpened` records whether control reaches `rasterio.open`. -/
def runScript (inp : ScriptInput) : ScriptResult :=
  let a := authStep inp.tokenResult
  let f := fetchStep inp.status inp.content
  let proceed := truthyBytes f.2
  { logs := credLogs inp.client_id inp.client_secret ++ a.1 ++ f.1 ++
      (if proceed then [] else [LogEvent.noImage])
    token := a.2
    image_bytes := f.2
    exited := !proceed
    rasterOpened := proceed }

/-! ### Display block (script lines 150-156) -/

/-- A display pixel: either a plain value or the NaN sentinel written by
`arr[mask] = np.nan`. -/
inductive PixVal where
  | nan
  | val (x : ℝ)

/-- Masked assignment `arr[mask] = np.nan`: the result of mutating `arr`
elementwise wherever the boolean mask is set. -/
def setInvalidToNan {r c : ℕ} (arr : Grid r c PixVal) (mask : Grid r c Bool) :
    Grid r c PixVal :=
  fun i j => if mask i j then PixVal.nan else arr i j

/-- The program variables after lines 150-156. -/
structure DisplayFrame (r c : ℕ) where
  vv_band_db : Grid r c ℝ
  vh_band_db : Grid r c ℝ
  vv_display : Grid r c PixVal
  vh_display : Grid r c PixVal

/-- Lines 150-156: `vv_display = vv_band_db.copy(); vh_display =
vh_band_db.copy(); vv_display[vv_invalid_mask] = np.nan;
vh_display[vh_invalid_mask] = np.nan`. Because `.copy()` allocates fresh
storage, the masked assignments touch only the copies, so the dB arrays in
the resulting frame are the inputs themselves. -/
def displayBlock {r c : ℕ} (vvdb vhdb : Grid r c ℝ) (vvm vhm : Grid r c Bool) :
    DisplayFrame r c :=
  { vv_band_db := vvdb
    vh_band_db := vhdb
    vv_display := setInvalidToNan (fun i j => PixVal.val (vvdb i j)) vvm
    vh_display := setInvalidToNan (fun i j => PixVal.val (vhdb i j)) vhm }

/-! ### Vector overlay compound path (script lines 188-211) -/

/-- A shapefile geometry as the script consumes it: a polygon contributes
its exterior-ring coordinates (`geom.exterior.coords`), anything else its
plain coordinates (`geom.coords`). -/
inductive Geom where
  | polygon (ext : List (ℝ × ℝ))
  | other (cs : List (ℝ × ℝ))

/-- Matplotlib path vertex codes used by the script. -/
inductive PathCode where
  | moveto
  | lineto
  | closepoly
  deriving DecidableEq

/-- `outer_coords`: the axes rectangle, closed back to its first corner. -/
def outer_coords (xlim ylim : ℝ × ℝ) : List (ℝ × ℝ) :=
  [(xlim.1, ylim.1), (xlim.2, ylim.1), (xlim.2, ylim.2), (xlim.1, ylim.2),
   (xlim.1, ylim.1)]

/-- `outer_codes = [Path.MOVETO, Path.LINETO, Path.LINETO, Path.LINETO,
Path.CLOSEPOLY]`. -/
def outer_codes : List PathCode :=
  [PathCode.moveto, PathCode.lineto, PathCode.lineto, PathCode.lineto,
   PathCode.closepoly]

/-- The coordinates the script extracts from a geometry. -/
def geomCoords : Geom → List (ℝ × ℝ)
  | Geom.polygon ext => ext
  | Geom.other cs => cs

/-- `inner_codes = [Path.MOVETO] + [Path.LINETO] * (len(inner_coords) - 2) +
[Path.CLOSEPOLY]`. -/
def inner_codes (cs : List (ℝ × ℝ)) : List PathCode :=
  [PathCode.moveto] ++ List.replicate (cs.length - 2) PathCode.lineto ++
    [PathCode.closepoly]

/-- Lines 192-209: the compound path built for one axes object from the
reprojected shapefile's geometry list. `geometry.iloc[0]` fails on an empty
frame, hence the `Option`. -/
def compound_path (xlim ylim : ℝ × ℝ) (geoms : List Geom) :
    Option (List (ℝ × ℝ) × List PathCode) :=
  match geoms with
  | [] => none
  | g :: _ =>
    let ic := geomCoords g
    some (outer_coords xlim ylim ++ ic, outer_codes ++ inner_codes ic)

/-! ### Synthetic 2x2 scenario (spec section 8) -/

/-- VV linear power `[[1, 1], [1, 1]]`. -/
def vvC3 : Grid 2 2 ℝ := ![![1, 1], ![1, 1]]

/-- VH linear power `[[1e-10, 1], [1, 1]]`. -/
def vhC3 : Grid 2 2 ℝ := ![![1e-10, 1], ![1, 1]]

/-- Data mask `[[1, 1], [0, 1]]`. -/
def dmC3 : Grid 2 2 ℝ := ![![1, 1], ![0, 1]]

/-! ### Sample inputs for the pipeline model -/

/-- A nonempty client id. -/
def sampleId : String := "client-id"

/-- A nonempty client secret. -/
def sampleSecret : String := "client-secret"

/-- A sample bearer token. -/
def sampleToken : String := "bearer"

/-- A sample exception message from `fetch_token`. -/
def sampleErr : String := "invalid-client"

/-- A fully healthy input except that the POST returns 403. -/
def inp403 : ScriptInput :=
  { client_id := some sampleId
    client_secret := some sampleSecret
    tokenResult := Except.ok sampleToken
    status := 403
    content := [] }

/-- Missing CLIENT_ID, but the rest of the pipeline healthy. -/
def inpNoCred : ScriptInput :=
  { client_id := none
    client_secret := some sampleSecret
    tokenResult := Except.ok sampleToken
    status := 200
    content := [7, 8, 9] }

/-- Token exchange fails, the rest of the pipeline healthy. -/
def inpAuthFail : ScriptInput :=
  { client_id := some sampleId
    client_secret := some sampleSecret
    tokenResult := Except.error sampleErr
    status := 200
    content := [7, 8, 9] }

/-- A 200 response with an empty body. -/
def inpEmpty200 : ScriptInput :=
  { client_id := some sampleId
    client_secret := some sampleSecret
    tokenResult := Except.ok sampleToken
    status := 200
    content := [] }

end SentinelProc

namespace SentinelProc

/-! ## Helper lemmas about the dB conversion -/

lemma one_lt_ten : (1 : ℝ) < 10 := by norm_num

lemma eps_pos : 0 < eps := by norm_num [eps]

lemma eps_eq_inv_pow : eps = ((10 : ℝ) ^ (10 : ℕ))⁻¹ := by norm_num [eps]

lemma logb_ten_pow (n : ℕ) : Real.logb 10 ((10 : ℝ) ^ n) = n := by
  rw [Real.logb_pow, Real.logb_self_eq_one one_lt_ten, mul_one]

lemma dB_zero : dB 0 = -100 := by
  rw [dB, zero_add, eps_eq_inv_pow, Real.logb_inv, logb_ten_pow]
  norm_num

lemma dB_strictMono {x y : ℝ} (hx : 0 ≤ x) (hxy : x < y) : dB x < dB y := by
  have h : Real.logb 10 (x + eps) < Real.logb 10 (y + eps) :=
    Real.logb_lt_logb one_lt_ten (by have := eps_pos; linarith) (by linarith)
  unfold dB
  linarith

lemma ten_mul_logb_two_gt : 3 < 10 * Real.logb 10 2 := by
  have h : Real.logb 10 ((10 : ℝ) ^ (3 : ℕ)) < Real.logb 10 ((2 : ℝ) ^ (10 : ℕ)) :=
    Real.logb_lt_logb one_lt_ten (by positivity) (by norm_num)
  rw [logb_ten_pow, Real.logb_pow] at h
  push_cast at h
  linarith

lemma logb_two_lt : 93 * Real.logb 10 2 < 28 := by
  have h : Real.logb 10 ((2 : ℝ) ^ (93 : ℕ)) < Real.logb 10 ((10 : ℝ) ^ (28 : ℕ)) :=
    Real.logb_lt_logb one_lt_ten (by positivity) (by norm_num)
  rw [logb_ten_pow, Real.logb_pow] at h
  push_cast at h
  linarith

lemma dB_at_1e10 : dB 1e-10 = 10 * Real.logb 10 2 - 100 := by
  have harg : (1e-10 : ℝ) + eps = 2 / (10 : ℝ) ^ (10 : ℕ) := by
    norm_num [eps]
  rw [dB, harg, Real.logb_div two_ne_zero (by positivity), logb_ten_pow]
  ring

lemma log_ten_gt_two : 2 < Real.log 10 := by
  rw [Real.lt_log_iff_exp_lt (by norm_num : (0 : ℝ) < 10)]
  have h2 : Real.exp 2 = Real.exp 1 * Real.exp 1 := by
    rw [← Real.exp_add]; norm_num
  have hlt := Real.exp_one_lt_d9
  have hpos := Real.exp_pos 1
  rw [h2]
  nlinarith

lemma dB_one_pos : 0 < dB 1 := by
  have h : 0 < Real.logb 10 (1 + eps) :=
    Real.logb_pos one_lt_ten (by have := eps_pos; linarith)
  unfold dB
  linarith

lemma dB_one_lt : dB 1 < 1e-9 := by
  have hlog : Real.log (1 + eps) ≤ eps := by
    have h := Real.log_le_sub_one_of_pos (show (0 : ℝ) < 1 + eps by
      have := eps_pos; linarith)
    linarith
  have hnonneg : 0 ≤ Real.log (1 + eps) :=
    Real.log_nonneg (by have := eps_pos; linarith)
  have hlogb : Real.logb 10 (1 + eps) ≤ eps / 2 := by
    rw [Real.logb]
    have h1 : Real.log (1 + eps) / Real.log 10 ≤ Real.log (1 + eps) / 2 :=
      div_le_div_of_nonneg_left hnonneg (by norm_num) (le_of_lt log_ten_gt_two)
    have h2 : Real.log (1 + eps) / 2 ≤ eps / 2 := by linarith
    linarith
  have : dB 1 ≤ 10 * (eps / 2) := by
    unfold dB
    linarith
  have heps : 10 * (eps / 2) < (1e-9 : ℝ) := by norm_num [eps]
  linarith

/-! ## Theorems -/

/-- C4: for the data-fetch step, success is exactly HTTP status 200. Any
other status is logged with its status code, yields no image bytes, never
reaches `rasterio.open` (so no raster object is created and no exception
can escape the fetch step), and the pipeline halts via the section-5
`exit()` with no retry; a 200 response's body bytes become the image. -/
theorem fetch_success_iff_200 (inp : ScriptInput) :
    (inp.status ≠ 200 →
      (runScript inp).image_bytes = none ∧
      (runScript inp).rasterOpened = false ∧
      (runScript inp).exited = true ∧
      LogEvent.fetchFailed inp.status ∈ (runScript inp).logs) ∧
    (inp.status = 200 → (runScript inp).image_bytes = some inp.content) := by
  constructor
  · intro h
    refine ⟨?_, ?_, ?_, ?_⟩ <;>
      simp [runScript, fetchStep, truthyBytes, h]
  · intro h
    simp [runScript, fetchStep, h]

/-- C4 witness: at status 403 the fetch yields no bytes, opens no raster,
exits, and logs the code 403. -/
theorem fetch_success_iff_200_witness :
    (runScript inp403).image_bytes = none ∧
    (runScript inp403).rasterOpened = false ∧
    (runScript inp403).exited = true ∧
    LogEvent.fetchFailed 403 ∈ (runScript inp403).logs :=
  (fetch_success_iff_200 inp403).1 (by decide)

/-- C5: when CLIENT_ID or CLIENT_SECRET is absent or empty, the script
reports the fatal condition but keeps going: the fetch stage still runs and
its outcome is exactly what the response dictates, and with a healthy
response the raster stage is still reached (no exit at the credential
check). -/
theorem missing_credentials_continue (inp : ScriptInput)
    (h : truthyOptStr inp.client_id = false ∨ truthyOptStr inp.client_secret = false) :
    LogEvent.credFatal ∈ (runScript inp).logs ∧
    (runScript inp).image_bytes = (fetchStep inp.status inp.content).2 ∧
    (inp.status = 200 → inp.content ≠ [] →
      (runScript inp).exited = false ∧ (runScript inp).rasterOpened = true) := by
  have hc : (truthyOptStr inp.client_id && truthyOptStr inp.client_secret) = false := by
    rcases h with h | h <;> simp [h]
  refine ⟨?_, ?_, ?_⟩
  · simp [runScript, credLogs, hc]
  · simp [runScript]
  · intro h200 hne
    constructor <;> simp [runScript, fetchStep, truthyBytes, h200, hne]

/-- C5 witness: with CLIENT_ID absent and a healthy 200 response, the fatal
message is logged yet the pipeline still reaches the raster stage. -/
theorem missing_credentials_continue_witness :
    LogEvent.credFatal ∈ (runScript inpNoCred).logs ∧
    (runScript inpNoCred).image_bytes = (fetchStep 200 [7, 8, 9]).2 ∧
    (runScript inpNoCred).exited = false ∧
    (runScript inpNoCred).rasterOpened = true := by
  have h := missing_credentials_continue inpNoCred (Or.inl rfl)
  exact ⟨h.1, h.2.1, h.2.2 rfl (by decide)⟩

/-- C6: if the OAuth2 token exchange fails with any error, the error is
caught and logged, no token is set, and execution continues into the fetch
stage (whose outcome is exactly what the response dictates); the program
does not terminate at the authentication step. -/
theorem token_failure_continues (inp : ScriptInput) (e : String)
    (h : inp.tokenResult = Except.error e) :
    (runScript inp).token = none ∧
    LogEvent.authFailed e ∈ (runScript inp).logs ∧
    (runScript inp).image_bytes = (fetchStep inp.status inp.content).2 ∧
    (inp.status = 200 → inp.content ≠ [] → (runScript inp).rasterOpened = true) := by
  refine ⟨?_, ?_, ?_, ?_⟩
  · simp [runScript, authStep, h]
  · simp [runScript, authStep, h]
  · simp [runScript]
  · intro h200 hne
    simp [runScript, fetchStep, truthyBytes, h200, hne]

/-- C6 witness: with a failing token exchange and a healthy 200 response,
the failure is logged, the token is unset, and the raster stage is still
reached. -/
theorem token_failure_continues_witness :
    (runScript inpAuthFail).token = none ∧
    LogEvent.authFailed sampleErr ∈ (runScript inpAuthFail).logs ∧
    (runScript inpAuthFail).image_bytes = (fetchStep 200 [7, 8, 9]).2 ∧
    (runScript inpAuthFail).rasterOpened = true := by
  have h := token_failure_continues inpAuthFail sampleErr rfl
  exact ⟨h.1, h.2.1, h.2.2.1, h.2.2.2 rfl (by decide)⟩

/-- C10: a 200 response with an empty body also halts the pipeline before
any raster is opened, because the section-5 guard exits whenever the stored
image bytes are falsy (`None` or empty). -/
theorem empty_body_halts (inp : ScriptInput)
    (h200 : inp.status = 200) (hempty : inp.content = []) :
    (runScript inp).image_bytes = some [] ∧
    (runScript inp).exited = true ∧
    (runScript inp).rasterOpened = false ∧
    LogEvent.noImage ∈ (runScript inp).logs := by
  refine ⟨?_, ?_, ?_, ?_⟩ <;>
    simp [runScript, fetchStep, truthyBytes, h200, hempty]

/-- C10 witness: a concrete 200 response with zero-length content exits
without opening a raster. -/
theorem empty_body_halts_witness :
    (runScript inpEmpty200).image_bytes = some [] ∧
    (runScript inpEmpty200).exited = true ∧
    (runScript inpEmpty200).rasterOpened = false ∧
    LogEvent.noImage ∈ (runScript inpEmpty200).logs :=
  empty_body_halts inpEmpty200 rfl rfl

/-- C7: the compound overlay path depends only on the first geometry of the
shapefile: it is the outer axes rectangle followed (as its single hole) by
that geometry's ring, with the matching code lists, and any further
features leave it unchanged. -/
theorem compound_path_first_geometry_only (xlim ylim : ℝ × ℝ) (g : Geom)
    (rest rest' : List Geom) :
    compound_path xlim ylim (g :: rest) =
      some (outer_coords xlim ylim ++ geomCoords g,
            outer_codes ++ inner_codes (geomCoords g)) ∧
    compound_path xlim ylim (g :: rest) = compound_path xlim ylim (g :: rest') := by
  constructor <;> rfl

/-- C9: the display block leaves the dB arrays untouched (the masked NaN
assignment happens on copies), writes NaN exactly at mask-flagged pixels,
and copies the dB value everywhere else. -/
theorem display_block_frame (r c : ℕ) (vvdb vhdb : Grid r c ℝ)
    (vvm vhm : Grid r c Bool) (i : Fin r) (j : Fin c) :
    (displayBlock vvdb vhdb vvm vhm).vv_band_db i j = vvdb i j ∧
    (displayBlock vvdb vhdb vvm vhm).vh_band_db i j = vhdb i j ∧
    (vvm i j = true → (displayBlock vvdb vhdb vvm vhm).vv_display i j = PixVal.nan) ∧
    (vvm i j = false →
      (displayBlock vvdb vhdb vvm vhm).vv_display i j = PixVal.val (vvdb i j) ∧
      (displayBlock vvdb vhdb vvm vhm).vv_display i j ≠ PixVal.nan) ∧
    (vhm i j = true → (displayBlock vvdb vhdb vvm vhm).vh_display i j = PixVal.nan) ∧
    (vhm i j = false →
      (displayBlock vvdb vhdb vvm vhm).vh_display i j = PixVal.val (vhdb i j) ∧
      (displayBlock vvdb vhdb vvm vhm).vh_display i j ≠ PixVal.nan) := by
  refine ⟨rfl, rfl, ?_, ?_, ?_, ?_⟩ <;> intro h <;>
    simp [displayBlock, setInvalidToNan, h]

/-- C9 witness: on a 1x1 frame with the VV pixel flagged and the VH pixel
unflagged, the VV display pixel is NaN, the VH display pixel keeps its dB
value, and both dB arrays are unchanged. -/
theorem display_block_frame_witness :
    (displayBlock (r := 1) (c := 1) (fun _ _ => 5) (fun _ _ => 7)
      (fun _ _ => true) (fun _ _ => false)).vv_band_db 0 0 = 5 ∧
    (displayBlock (r := 1) (c := 1) (fun _ _ => 5) (fun _ _ => 7)
      (fun _ _ => true) (fun _ _ => false)).vh_band_db 0 0 = 7 ∧
    (displayBlock (r := 1) (c := 1) (fun _ _ => 5) (fun _ _ => 7)
      (fun _ _ => true) (fun _ _ => false)).vv_display 0 0 = PixVal.nan ∧
    (displayBlock (r := 1) (c := 1) (fun _ _ => 5) (fun _ _ => 7)
      (fun _ _ => true) (fun _ _ => false)).vh_display 0 0 = PixVal.val 7 := by
  have h := display_block_frame 1 1 (fun _ _ => 5) (fun _ _ => 7)
    (fun _ _ => true) (fun _ _ => false) 0 0
  exact ⟨h.1, h.2.1, h.2.2.1 rfl, (h.2.2.2.2.2 rfl).1⟩

/-- C1: for every pixel, a mask-band value of 0 flags the pixel invalid in
both polarizations regardless of its dB values, and for a nonzero mask-band
value a pixel is invalid in a polarization exactly when that polarization's
dB value is strictly below -22. -/
theorem invalid_mask_spec (r c : ℕ) (vvlin vhlin datamask : Grid r c ℝ)
    (i : Fin r) (j : Fin c) :
    (datamask i j = 0 →
      vv_invalid_mask datamask (bandToDb vvlin) i j ∧
      vh_invalid_mask datamask (bandToDb vhlin) i j) ∧
    (datamask i j ≠ 0 →
      (vv_invalid_mask datamask (bandToDb vvlin) i j ↔ bandToDb vvlin i j < -22) ∧
      (vh_invalid_mask datamask (bandToDb vhlin) i j ↔ bandToDb vhlin i j < -22)) := by
  constructor
  · intro h
    exact ⟨Or.inl h, Or.inl h⟩
  · intro h
    exact ⟨or_iff_right h, or_iff_right h⟩

/-- C1 witness: on a 1x1 raster with mask value 0 both invalid masks are
set, and on a 1x1 raster with mask value 1 the VV invalid mask reduces to
the dB threshold test. -/
theorem invalid_mask_spec_witness :
    (vv_invalid_mask (r := 1) (c := 1) (fun _ _ => 0) (bandToDb fun _ _ => 1) 0 0 ∧
     vh_invalid_mask (r := 1) (c := 1) (fun _ _ => 0) (bandToDb fun _ _ => 1) 0 0) ∧
    (vv_invalid_mask (r := 1) (c := 1) (fun _ _ => 1) (bandToDb fun _ _ => 1) 0 0 ↔
      bandToDb (r := 1) (c := 1) (fun _ _ => 1) 0 0 < -22) :=
  ⟨(invalid_mask_spec 1 1 (fun _ _ => 1) (fun _ _ => 1) (fun _ _ => 0) 0 0).1 rfl,
   ((invalid_mask_spec 1 1 (fun _ _ => 1) (fun _ _ => 1) (fun _ _ => 1) 0 0).2
      one_ne_zero).1⟩

/-- C2: the decibel conversion `dB x = 10 * log10 (x + 1e-10)` is strictly
increasing for `0 ≤ x` (hence monotonic), and `dB 0` is the finite value
-100: the additive epsilon prevents taking the logarithm of zero. -/
theorem dB_monotone_and_finite_at_zero :
    (∀ x y : ℝ, 0 ≤ x → x < y → dB x < dB y) ∧ dB 0 = -100 :=
  ⟨fun _ _ hx hxy => dB_strictMono hx hxy, dB_zero⟩

/-- C2 witness: the conversion applied at 0 and 1 is strictly increasing,
and at 0 it evaluates to -100. -/
theorem dB_monotone_and_finite_at_zero_witness :
    dB 0 < dB 1 ∧ dB 0 = -100 :=
  ⟨dB_monotone_and_finite_at_zero.1 0 1 le_rfl zero_lt_one,
   dB_monotone_and_finite_at_zero.2⟩

/-- C3 counterexample: in the synthetic 2x2 scenario the VH dB value at
position [0,0] is not approximately -100: it differs from -100 by more
than 3 (its exact value is `-100 + 10 * log10 2`, about -96.99, because the
epsilon added to the linear power 1e-10 doubles the argument of the
logarithm). -/
theorem scenario_2x2_vh00_not_near_neg100 :
    ¬ |bandToDb vhC3 0 0 - (-100)| < 3 := by
  have h00 : vhC3 0 0 = 1e-10 := rfl
  have hval : bandToDb vhC3 0 0 = 10 * Real.logb 10 2 - 100 := by
    show dB (vhC3 0 0) = _
    rw [h00, dB_at_1e10]
  have hgt := ten_mul_logb_two_gt
  rw [hval]
  rw [abs_of_pos (by linarith)]
  intro hcon
  linarith

/-- C3 (amended): for the synthetic 2x2 input with VV linear power
`[[1,1],[1,1]]`, VH linear power `[[1e-10,1],[1,1]]` and mask
`[[1,1],[0,1]]`, every VV dB value is within 1e-9 of 0, the VH dB value at
[0,0] lies strictly between -97 and -96.98 (approximately -96.99, not
-100), and the pixel at row 1, column 0 — where the mask is 0 — is flagged
invalid in both masks irrespective of the dB values of any bands. -/
theorem scenario_2x2_amended :
    (∀ i j, |bandToDb vvC3 i j| < 1e-9) ∧
    (-97 < bandToDb vhC3 0 0 ∧ bandToDb vhC3 0 0 < -96.98) ∧
    (∀ vv vh : Grid 2 2 ℝ,
      vv_invalid_mask dmC3 (bandToDb vv) 1 0 ∧
      vh_invalid_mask dmC3 (bandToDb vh) 1 0) := by
  refine ⟨?_, ?_, ?_⟩
  · intro i j
    have h1 : vvC3 i j = 1 := by
      fin_cases i <;> fin_cases j <;> rfl
    show |dB (vvC3 i j)| < 1e-9
    rw [h1, abs_of_pos dB_one_pos]
    exact dB_one_lt
  · have hval : bandToDb vhC3 0 0 = 10 * Real.logb 10 2 - 100 := by
      show dB (vhC3 0 0) = _
      rw [show vhC3 0 0 = 1e-10 from rfl, dB_at_1e10]
    have hgt := ten_mul_logb_two_gt
    have hlt := logb_two_lt
    rw [hval]
    constructor <;> [linarith; nlinarith]
  · intro vv vh
    have hdm : dmC3 1 0 = 0 := rfl
    exact ⟨Or.inl hdm, Or.inl hdm⟩

end SentinelProc
